import Mathlib

/-!
Verification development for the sync/relay protocol of the `ckb` repository,
a shallow embedding of `src/sync/src/protocol.rs`.

The embedding models:
* the per-peer eviction state machines of `SyncProtocol::eviction`
  (headers-sync timeout and the chain-sync two-phase timeout),
* the task-dispatch layer (`read` / `connected` / `timeout` feeding a bounded queue),
* the `RelayProtocol` message handler (`process`), including
  compact-block reconstruction (`reconstruct_block`), the relay dedup sets and
  the pending-reconstruction map.

Conventions: hashes, peer ids and wall-clock instants are `Nat`; Rust
`HashSet` / `HashMap` become association lists with insert-overwrite semantics;
code that can panic is embedded as an `Option`-returning function where `none`
is the panic outcome.
-/

namespace CkbSync

/-- Modelled from the spec: the constants `CHAIN_SYNC_TIMEOUT`,
`EVICTION_TEST_RESPONSE_TIME` and the timer tokens are imported from the crate
root, which is not under `src/`; the spec names them without giving values, so
we fix the reference-protocol values (20 minutes and 2 minutes, in
milliseconds).  No claim depends on the values beyond their positivity. -/
def CHAIN_SYNC_TIMEOUT : Nat := 20 * 60 * 1000

/-- Modelled from the spec: see `CHAIN_SYNC_TIMEOUT`. -/
def EVICTION_TEST_RESPONSE_TIME : Nat := 2 * 60 * 1000

/-- Timer token registered in `initialize` for the getheaders broadcast. -/
def SEND_GET_HEADERS_TOKEN : Nat := 1

/-- Timer token registered in `initialize` for block-fetch selection. -/
def BLOCK_FETCH_TOKEN : Nat := 2

/-- Block header; we keep only the fields the claims observe: the height and
the header hash (`IndexedHeader` identity). -/
structure Header where
  number : Nat
  hash : Nat
deriving DecidableEq, Repr

/-- An entry of the best-known-headers map: a header together with its
cumulative difficulty (`HeaderView` in the source). -/
structure HeaderView where
  total_difficulty : Nat
  header : Header
deriving DecidableEq, Repr

/-- Severity grades passed to `NetworkContext::report_peer`. -/
inductive Severity where
  | Timeout
  | BadProtocol
  | Useless
deriving DecidableEq, Repr

/-- The nested `chain_sync` record of a peer state. -/
structure ChainSyncState where
  protect : Bool
  timeout : Nat
  work_header : Option HeaderView
  sent_getheaders : Bool
deriving DecidableEq, Repr

/-- Per-peer state as read and written by `SyncProtocol::eviction`. -/
structure PeerState where
  headers_sync_timeout : Option Nat
  disconnect : Bool
  chain_sync : ChainSyncState
deriving DecidableEq, Repr

/-- The per-tick, per-peer observation environment of the eviction loop:
the wall clock `now_ms()`, `is_initial_block_download()`, the session
`originated` flag (`is_outbound`, `none` when no session exists), the
best-known header recorded for the peer, and our chain tip. -/
structure Env where
  now : Nat
  ibd : Bool
  outbound : Option Bool
  best_known : Option HeaderView
  tip : HeaderView
deriving DecidableEq, Repr

/-- What one eviction-loop iteration does for one peer besides updating its
state: whether the peer was pushed onto the eviction list (each such peer is
reported with `Severity::Timeout` after the loop) and the anchor header of a
GetHeaders probe, when one was sent. -/
structure TickOut where
  evicted : Bool
  probe : Option Header
deriving DecidableEq, Repr

/-- The guard `best_known_header.is_some() && best.total_difficulty >= chain_tip.total_difficulty`. -/
def bestGeTipB (e : Env) : Bool :=
  match e.best_known with
  | some b => decide (e.tip.total_difficulty ≤ b.total_difficulty)
  | none => false

/-- The guard `best_known_header.is_some() && work_header.is_some() && best.td >= work.td`. -/
def bestGeWorkB (e : Env) (cs : ChainSyncState) : Bool :=
  match e.best_known, cs.work_header with
  | some b, some w => decide (w.total_difficulty ≤ b.total_difficulty)
  | _, _ => false

/-- The chain-sync portion of one eviction-loop iteration for one peer
(`protocol.rs` lines 229-271).  The source guard is the nested
`if let Some(is_outbound) = is_outbound(nc, peer) { if !protect && is_outbound`;
it runs the machinery exactly when the session exists, reports an outbound
origin and the peer is unprotected, which is the single conjunction used here.
The returned `none` is the panic outcome of
`state.chain_sync.work_header.clone().unwrap()` in the probe branch. -/
def chainSyncTick (e : Env) (st : PeerState) : Option (PeerState × TickOut) :=
    if st.chain_sync.protect = false ∧ e.outbound = some true then
      if bestGeTipB e = true then
        if st.chain_sync.timeout ≠ 0 then
          some ({ st with chain_sync :=
                    { st.chain_sync with
                      timeout := 0, work_header := none, sent_getheaders := false } },
                { evicted := false, probe := none })
        else
          some (st, { evicted := false, probe := none })
      else if st.chain_sync.timeout = 0 ∨ bestGeWorkB e st.chain_sync = true then
        some ({ st with chain_sync :=
                  { st.chain_sync with
                    timeout := e.now + CHAIN_SYNC_TIMEOUT,
                    work_header := some e.tip, sent_getheaders := false } },
              { evicted := false, probe := none })
      else if 0 < st.chain_sync.timeout ∧ st.chain_sync.timeout < e.now then
        if st.chain_sync.sent_getheaders = true then
          some ({ st with disconnect := true }, { evicted := true, probe := none })
        else
          match st.chain_sync.work_header with
          | some w =>
            some ({ st with chain_sync :=
                      { st.chain_sync with
                        sent_getheaders := true,
                        timeout := e.now + EVICTION_TEST_RESPONSE_TIME } },
                  { evicted := false, probe := some w.header })
          | none => none
      else
        some (st, { evicted := false, probe := none })
    else
      some (st, { evicted := false, probe := none })

/-- The headers-sync timeout guard of the eviction loop (`protocol.rs` lines
221-222): true exactly when `headers_sync_timeout` is `Some(t)`, `now > t`,
the node is in initial-block-download and `disconnect` is unset. -/
def headersFire (e : Env) (st : PeerState) : Bool :=
  match st.headers_sync_timeout with
  | some t => decide (t < e.now) && e.ibd && !st.disconnect
  | none => false

/-- One full eviction-loop iteration for one peer (`protocol.rs` lines
218-272): first the headers-sync timeout check (which `continue`s past the
chain-sync machinery when it fires), then `chainSyncTick`. -/
def evictionTick (e : Env) (st : PeerState) : Option (PeerState × TickOut) :=
  if headersFire e st = true then
    some ({ st with disconnect := true }, { evicted := true, probe := none })
  else
    chainSyncTick e st

/-- The whole of `SyncProtocol::eviction` over the peer-state map: iterate the
per-peer tick, then report every collected peer with `Severity::Timeout`. -/
def mapEviction (env : Nat → Env) : List (Nat × PeerState) →
    Option (List (Nat × PeerState) × List (Nat × Severity))
  | [] => some ([], [])
  | (p, st) :: rest =>
    match evictionTick (env p) st with
    | none => none
    | some (st', o) =>
      match mapEviction env rest with
      | none => none
      | some (rest', reps) =>
        some ((p, st') :: rest',
              (if o.evicted then [(p, Severity.Timeout)] else []) ++ reps)

/-- Iterated eviction ticks on a single peer, collecting the per-tick outputs. -/
def runTicks : List Env → PeerState → Option (PeerState × List TickOut)
  | [], st => some (st, [])
  | e :: es, st =>
    match evictionTick e st with
    | none => none
    | some (st', o) =>
      match runTicks es st' with
      | none => none
      | some (stN, os) => some (stN, o :: os)

/-- Invariant relating `chain_sync.timeout = 0` to the other S0 fields:
an inactive chain-sync record carries no work header and no probe marker. -/
def csInv (st : PeerState) : Prop :=
  st.chain_sync.timeout = 0 →
    st.chain_sync.work_header = none ∧ st.chain_sync.sent_getheaders = false

/-! ## Wire messages and the task dispatcher -/

/-- The `ckb_protocol::GetHeaders` message. -/
structure GetHeadersMsg where
  version : Nat
  block_locator_hashes : List Nat
  hash_stop : Nat
deriving DecidableEq, Repr

/-- The `ckb_protocol::Headers` message. -/
structure HeadersMsg where
  headers : List Header
deriving DecidableEq, Repr

/-- One `ckb_protocol::Inventory` entry. -/
structure InventoryMsg where
  inv_type : Nat
  hash : Nat
deriving DecidableEq, Repr

/-- The `ckb_protocol::GetData` message. -/
structure GetDataMsg where
  inventory : List InventoryMsg
deriving DecidableEq, Repr

/-- A transaction; the claims observe only its hash. -/
structure Transaction where
  hash : Nat
deriving DecidableEq, Repr

/-- A compact block: header, short-id salt nonce, the ordered short-id list and
the uncle list (uncles kept abstract as hashes). -/
structure CompactBlock where
  header : Header
  nonce : Nat
  short_ids : List Nat
  uncles : List Nat
deriving DecidableEq, Repr

/-- A full block as assembled by `Block::new(header, transactions, uncles)`. -/
structure Block where
  header : Header
  transactions : List Transaction
  uncles : List Nat
deriving DecidableEq, Repr

/-- The wire envelope `ckb_protocol::Payload`: a record of optional message
fields, exactly one of which is normally populated.  The two block-transaction
messages are kept structural: a `BlockTransactionsRequest` is a hash with a
list of indexes, a `BlockTransactions` is a hash with a list of transactions. -/
structure Payload where
  getheaders : Option GetHeadersMsg := none
  headers : Option HeadersMsg := none
  getdata : Option GetDataMsg := none
  block : Option Block := none
  transaction : Option Transaction := none
  compact_block : Option CompactBlock := none
  block_transactions_request : Option (Nat × List Nat) := none
  block_transactions : Option (Nat × List Transaction) := none
deriving DecidableEq, Repr

/-- The tagged work items of the dispatcher queue (`Task` in the source;
network-context handles are elided). -/
inductive Task where
  | OnConnected (peer : Nat)
  | SendGetHeadersToAll
  | FetchBlock
  | HandleGetheaders (peer : Nat) (msg : GetHeadersMsg)
  | HandleHeaders (peer : Nat) (msg : HeadersMsg)
  | HandleGetdata (peer : Nat) (msg : GetDataMsg)
  | HandleBlock (peer : Nat) (msg : Block)
deriving DecidableEq, Repr

/-- The bounded work queue: `mpsc::channel(65535)` together with `try_send`.
The result pairs the queue after the call with the error flag: on a full
queue the item is dropped, an error is reported and the queue is unchanged;
`try_send` never blocks. -/
def trySend (q : List Task) (t : Task) : List Task × Bool :=
  if q.length < 65535 then (q ++ [t], false) else (q, true)

namespace SyncProtocol

/-- The message-to-task translation of `SyncProtocol::process`: the if-chain
over `has_getheaders` / `has_headers` / `has_getdata` / `has_block`; every
other payload falls through to `Ok(())` and enqueues nothing. -/
def process (peer : Nat) (p : Payload) : Option Task :=
  match p.getheaders with
  | some m => some (Task.HandleGetheaders peer m)
  | none =>
    match p.headers with
    | some m => some (Task.HandleHeaders peer m)
    | none =>
      match p.getdata with
      | some m => some (Task.HandleGetdata peer m)
      | none =>
        match p.block with
        | some b => some (Task.HandleBlock peer b)
        | none => none

/-- The guard-and-enqueue of `SyncProtocol::dispatch_on_connected`: the task is
produced only when `n_sync == 0` or initial-block-download is over. -/
def dispatch_on_connected (n_sync : Nat) (ibd : Bool) (peer : Nat) : Option Task :=
  if n_sync = 0 ∨ ibd = false then some (Task.OnConnected peer) else none

/-- The guard-and-enqueue of `SyncProtocol::dispatch_getheaders`. -/
def dispatch_getheaders (n_sync : Nat) (ibd : Bool) : Option Task :=
  if n_sync = 0 ∨ ibd = false then some Task.SendGetHeadersToAll else none

/-- `SyncProtocol::dispatch_block_fetch` enqueues unconditionally. -/
def dispatch_block_fetch : Option Task :=
  some Task.FetchBlock

/-- The `timeout` entry point: nothing is dispatched when no peers are
connected; otherwise the token selects the dispatcher.  Tokens other than the
two registered ones hit `unreachable!` in the source and are never passed by
the transport; they are mapped to `none` here. -/
def timeoutDispatch (peersEmpty : Bool) (n_sync : Nat) (ibd : Bool) (token : Nat) : Option Task :=
  if peersEmpty = true then none
  else if token = SEND_GET_HEADERS_TOKEN then dispatch_getheaders n_sync ibd
  else if token = BLOCK_FETCH_TOKEN then dispatch_block_fetch
  else none

end SyncProtocol

/-! ## Relay protocol -/

/-- Modelled from the spec: `short_transaction_id_keys` lives in
`src/sync/src/compact_block.rs`, which is not under `src/`.  The spec says the
two keys are derived deterministically from the nonce and the header; we fix a
concrete deterministic mixing function.  No claim depends on the formula. -/
def short_transaction_id_keys (nonce : Nat) (header : Header) : Nat × Nat :=
  ((nonce + header.hash) % 2 ^ 64, (2 * nonce + 3 * header.hash + 1) % 2 ^ 64)

/-- Modelled from the spec: `short_transaction_id` from
`src/sync/src/compact_block.rs` (not under `src/`): a deterministic fixed-width
short id computed from the two keys and the transaction hash. -/
def short_transaction_id (key0 key1 txhash : Nat) : Nat :=
  (key0 + 5 * key1 + 7 * txhash) % 2 ^ 48

/-- Association-list lookup standing in for `FnvHashMap` lookup. -/
def alLookup {α : Type} (k : Nat) : List (Nat × α) → Option α
  | [] => none
  | (k', v) :: rest => if k' = k then some v else alLookup k rest

/-- Removal of every binding of a key, standing in for `FnvHashMap::remove`. -/
def alErase {α : Type} (k : Nat) (m : List (Nat × α)) : List (Nat × α) :=
  m.filter (fun p => p.1 != k)

/-- Insert-with-overwrite, standing in for `FnvHashMap::insert`. -/
def alInsert {α : Type} (k : Nat) (v : α) (m : List (Nat × α)) : List (Nat × α) :=
  (k, v) :: alErase k m

/-- `HashSet::insert`: returns `true` exactly when the element was newly
inserted (was not already present), together with the updated set. -/
def setInsert (s : List Nat) (h : Nat) : Bool × List Nat :=
  if h ∈ s then (false, s) else (true, h :: s)

/-- `Vec::insert(index, a)`: inserts at `index`, shifting the suffix right.
The source panics when `index > len`; that outcome is `none` here. -/
def listInsertIdx {α : Type} : Nat → α → List α → Option (List α)
  | 0, a, xs => some (a :: xs)
  | n + 1, a, x :: xs => (listInsertIdx n a xs).map (fun ys => x :: ys)
  | _ + 1, _, [] => none

/-- The reconstruction walk of `RelayProtocol::reconstruct_block`: for each
`(index, short_id)` in order, either adopt the matched transaction (removing
it from the candidate map and inserting it into the accumulator at `index`) or
record the index as missing.  `none` is the `Vec::insert` panic outcome. -/
def reconstructLoop :
    List (Nat × Nat) → List (Nat × Transaction) → List Transaction → List Nat →
    Option (List Transaction × List Nat)
  | [], _, acc, missing => some (acc, missing)
  | (i, sid) :: rest, m, acc, missing =>
    match alLookup sid m with
    | some tx =>
      match listInsertIdx i tx acc with
      | some acc' => reconstructLoop rest (alErase sid m) acc' missing
      | none => none
    | none => reconstructLoop rest m acc (missing ++ [i])

/-- The candidate map of `reconstruct_block`: every candidate transaction
indexed by its short id under the keys of the compact block, with
insert-overwrite (a later candidate with a colliding short id wins). -/
def buildShortIdMap (cb : CompactBlock) (txs : List Transaction) : List (Nat × Transaction) :=
  let keys := short_transaction_id_keys cb.nonce cb.header
  txs.foldl (fun m tx => alInsert (short_transaction_id keys.1 keys.2 tx.hash) tx m) []

/-- `RelayProtocol::reconstruct_block`: candidate transactions are the inline
transactions followed by the main pool and the orphan pool; the short-id walk
either assembles the block or yields the missing-index list.  `none` is the
panic outcome. -/
def reconstruct_block (cb : CompactBlock) (transactions pool orphan : List Transaction) :
    Option (Option Block × Option (List Nat)) :=
  match reconstructLoop cb.short_ids.enum
      (buildShortIdMap cb (transactions ++ pool ++ orphan)) [] [] with
  | none => none
  | some (bts, missing) =>
    if missing = [] then
      some (some { header := cb.header, transactions := bts, uncles := cb.uncles }, none)
    else
      some (none, some missing)

/-- The transactions a `BlockTransactionsRequest` asks for: the transactions of
the named block at the requested indexes, out-of-range indexes silently
skipped (`indexes.iter().filter_map(|i| block.transactions.get(*i))`). -/
def requested_transactions (b : Block) (indexes : List Nat) : List Transaction :=
  indexes.filterMap (fun i => b.transactions.get? i)

/-- The peers a payload is forwarded to by `RelayProtocol::relay`: every
connected peer except the source. -/
def relay_targets (peers : List Nat) (source : Nat) : List Nat :=
  peers.filter (fun p => p != source)

/-- The mutable state owned by `RelayProtocol`. -/
structure RelayState where
  received_blocks : List Nat
  received_transactions : List Nat
  pending_compact_blocks : List (Nat × CompactBlock)
deriving DecidableEq, Repr

/-- The observable effects of one `RelayProtocol::process` call:
`add_to_memory_pool` (hash of the admitted transaction), `process_new_block`
(hash of the submitted block), whether `relay` forwarded the payload to the
other peers, and the payload passed to `respond_payload`, if any. -/
structure RelayEffects where
  pool_add : Option Nat := none
  submitted : Option Nat := none
  relayed : Bool := false
  responded : Option Payload := none
deriving DecidableEq, Repr

namespace RelayProtocol

/-- `RelayProtocol::process` (`protocol.rs` lines 479-553).  The surrounding
collaborators are passed as values: the main pool and orphan pool contents and
the chain storage lookup `getBlock`.  `none` is the panic outcome propagated
from `reconstruct_block`.  Note two literal transcriptions from the source:
the dedup guards run the processing branch when `insert` returns `false`
(hash already present), and the `BlockTransactionsRequest` branch builds the
`BlockTransactions` message but responds with the payload it never attached
it to. -/
def process (pool orphan : List Transaction) (getBlock : Nat → Option Block)
    (st : RelayState) (payload : Payload) : Option (RelayState × RelayEffects) :=
  match payload.transaction with
  | some tx =>
    match setInsert st.received_transactions tx.hash with
    | (isNew, rt') =>
      if isNew = false then
        some ({ st with received_transactions := rt' },
              { pool_add := some tx.hash, relayed := true })
      else
        some ({ st with received_transactions := rt' }, {})
  | none =>
  match payload.block with
  | some b =>
    match setInsert st.received_blocks b.header.hash with
    | (isNew, rb') =>
      if isNew = false then
        some ({ st with received_blocks := rb' },
              { submitted := some b.header.hash, relayed := true })
      else
        some ({ st with received_blocks := rb' }, {})
  | none =>
  match payload.compact_block with
  | some cb =>
    match setInsert st.received_blocks cb.header.hash with
    | (isNew, rb') =>
      if isNew = false then
        match reconstruct_block cb [] pool orphan with
        | some (some b, _) =>
          some ({ st with received_blocks := rb' },
                { submitted := some b.header.hash, relayed := true })
        | some (none, some missing) =>
          let pending' := alInsert cb.header.hash cb st.pending_compact_blocks
          some ({ st with received_blocks := rb', pending_compact_blocks := pending' },
                { responded := some { block_transactions_request :=
                                        some (cb.header.hash, missing) } })
        | some (none, none) => some ({ st with received_blocks := rb' }, {})
        | none => none
      else
        some ({ st with received_blocks := rb' }, {})
  | none =>
  match payload.block_transactions_request with
  | some (hsh, indexes) =>
    match getBlock hsh with
    | some b =>
      let _bt := (hsh, requested_transactions b indexes)
      some (st, { responded := some ({} : Payload) })
    | none => some (st, {})
  | none =>
  match payload.block_transactions with
  | some (hsh, txs) =>
    match alLookup hsh st.pending_compact_blocks with
    | some cb =>
      match reconstruct_block cb txs pool orphan with
      | some (some b, _) =>
        some ({ st with pending_compact_blocks := alErase hsh st.pending_compact_blocks },
              { submitted := some b.header.hash })
      | some (none, _) =>
        some ({ st with pending_compact_blocks := alErase hsh st.pending_compact_blocks }, {})
      | none => none
    | none => some (st, {})
  | none => some (st, {})

end RelayProtocol

/-! ## Concrete fixtures used by counterexamples, evaluations and witnesses -/

/-- A chain tip of cumulative difficulty 10. -/
def tvX : HeaderView := { total_difficulty := 10, header := { number := 0, hash := 0 } }

/-- The S0 (inactive) chain-sync record of an unprotected peer, as set at connect. -/
def cs0 : ChainSyncState :=
  { protect := false, timeout := 0, work_header := none, sent_getheaders := false }

/-- A best-known header view matching the tip difficulty. -/
def bHighX : HeaderView := { total_difficulty := 10, header := { number := 5, hash := 5 } }

/-- Peer state for the C2 counterexample trace: headers-sync deadline
1320003 ms, freshly connected chain-sync state. -/
def c2st0 : PeerState :=
  { headers_sync_timeout := some 1320003, disconnect := false, chain_sync := cs0 }

/-- Tick environments of the C2 counterexample trace (IBD throughout,
outbound session, no best-known header). -/
def c2e0 : Env :=
  { now := 1, ibd := true, outbound := some true, best_known := none, tip := tvX }

def c2e1 : Env := { c2e0 with now := 1200002 }

def c2e2 : Env := { c2e0 with now := 1320004 }

def c2e3 : Env := { c2e0 with now := 1320005 }

/-- Initial peer state of the C3 counterexample: headers-sync deadline already
expired at connect, chain-sync inactive. -/
def c3st0 : PeerState :=
  { headers_sync_timeout := some 0, disconnect := false, chain_sync := cs0 }

/-- Single tick environment of the C3 counterexample. -/
def c3e : Env :=
  { now := 1, ibd := true, outbound := some true, best_known := none, tip := tvX }

/-- Tick environments of the C3 witness trace: same shape but outside
initial-block-download. -/
def c3f0 : Env :=
  { now := 1, ibd := false, outbound := some true, best_known := none, tip := tvX }

def c3f1 : Env := { c3f0 with now := 1200002 }

def c3f2 : Env := { c3f0 with now := 1320003 }

/-- Peer state for the C7 counterexample trace: headers-sync deadline between
the probe tick and the final tick. -/
def c7st0 : PeerState :=
  { headers_sync_timeout := some 1300000, disconnect := false, chain_sync := cs0 }

def c7e0 : Env :=
  { now := 1, ibd := true, outbound := some true, best_known := none, tip := tvX }

def c7e1 : Env := { c7e0 with now := 1200002 }

/-- Final tick of the C7 counterexample: the peer now reports a best-known
difficulty matching our tip, but the headers-sync timeout fires on the same
tick. -/
def c7e2 : Env := { c7e0 with now := 1320003, best_known := some bHighX }

/-- A compact block whose single short id (1) resolves to no candidate. -/
def c9cbMiss : CompactBlock :=
  { header := { number := 7, hash := 100 }, nonce := 0, short_ids := [1], uncles := [] }

/-- A compact block whose single short id is the short id of the transaction
with hash 2 under its own keys. -/
def c9cbHit : CompactBlock :=
  { header := { number := 8, hash := 200 }, nonce := 0,
    short_ids := [short_transaction_id 200 601 2], uncles := [] }

/-- Relay state for the C9 counterexample: one pending reconstruction. -/
def c9st : RelayState :=
  { received_blocks := [], received_transactions := [],
    pending_compact_blocks := [(100, c9cbMiss)] }

/-- Relay state for the C9 witness: the compact-block hash 100 is in the
received set (the inverted dedup guard only processes already-seen hashes) and
hash 200 has a pending reconstruction. -/
def c9stW : RelayState :=
  { received_blocks := [100], received_transactions := [],
    pending_compact_blocks := [(200, c9cbHit)] }

/-- The empty relay state. -/
def st0R : RelayState :=
  { received_blocks := [], received_transactions := [], pending_compact_blocks := [] }

/-- C5 failing input: short id 1 at position 0 resolves to nothing, the short
id of transaction 1 (under keys (0, 1) derived from nonce 0 and header hash 0)
at position 1 resolves in the pool. -/
def c5cb : CompactBlock :=
  { header := { number := 2, hash := 0 }, nonce := 0,
    short_ids := [1, short_transaction_id 0 1 1], uncles := [] }

/-- C10 counterexample input of the same missing-then-found shape. -/
def c10cb : CompactBlock :=
  { header := { number := 3, hash := 0 }, nonce := 0,
    short_ids := [3, short_transaction_id 0 1 2], uncles := [] }

/-- C10 witness input: a single short id that resolves in the pool. -/
def c10good : CompactBlock :=
  { header := { number := 4, hash := 0 }, nonce := 0,
    short_ids := [short_transaction_id 0 1 1], uncles := [] }

/-- The block that `c10good` reconstructs to against a pool holding the
transaction with hash 1. -/
def c10blk : Block :=
  { header := { number := 4, hash := 0 }, transactions := [{ hash := 1 }], uncles := [] }

/-- The stored block answering the C6 failing request. -/
def c6blk : Block :=
  { header := { number := 6, hash := 7 },
    transactions := [{ hash := 3 }, { hash := 4 }], uncles := [] }

/-- Chain storage holding exactly `c6blk` under hash 7. -/
def c6get : Nat → Option Block := fun h => if h = 7 then some c6blk else none

/-- C2 witness fixtures: an expired headers-sync deadline on a protected peer
(protection must not exempt). -/
def st2w : PeerState :=
  { headers_sync_timeout := some 3, disconnect := false,
    chain_sync := { protect := true, timeout := 0, work_header := none,
                    sent_getheaders := false } }

def e2w : Env :=
  { now := 10, ibd := true, outbound := some true, best_known := none, tip := tvX }

/-- C4 witness fixtures: a protected outbound peer with an active chain-sync
record that must not be touched. -/
def st4w : PeerState :=
  { headers_sync_timeout := none, disconnect := false,
    chain_sync := { protect := true, timeout := 7, work_header := some tvX,
                    sent_getheaders := true } }

def e4w : Env :=
  { now := 5, ibd := true, outbound := some true, best_known := none, tip := tvX }

/-- C7 witness fixtures: an unprotected outbound peer in the probed state
whose best-known difficulty has caught up with our tip. -/
def st7w : PeerState :=
  { headers_sync_timeout := none, disconnect := false,
    chain_sync := { protect := false, timeout := 7, work_header := some tvX,
                    sent_getheaders := true } }

def e7w : Env :=
  { now := 1, ibd := false, outbound := some true, best_known := some tvX, tip := tvX }

/-- C3 witness fixtures: the probe tick (watching state, timeout just
expired, probe not yet sent)... -/
def stP3 : PeerState :=
  { headers_sync_timeout := none, disconnect := false,
    chain_sync := { protect := false, timeout := 1200001, work_header := some tvX,
                    sent_getheaders := false } }

def eP3 : Env :=
  { now := 1200002, ibd := false, outbound := some true, best_known := none, tip := tvX }

/-- ... and the eviction tick (probed state, second timeout expired). -/
def stB3 : PeerState :=
  { headers_sync_timeout := none, disconnect := false,
    chain_sync := { protect := false, timeout := 1320002, work_header := some tvX,
                    sent_getheaders := true } }

def eB3 : Env :=
  { now := 1320003, ibd := false, outbound := some true, best_known := none, tip := tvX }

/-- Final peer state of the C3 witness trace. -/
def c3stNW : PeerState :=
  { headers_sync_timeout := some 0, disconnect := true,
    chain_sync := { protect := false, timeout := 1320002, work_header := some tvX,
                    sent_getheaders := true } }

/-- Tick outputs of the C3 witness trace: watch, probe, evict. -/
def c3osW : List TickOut :=
  [{ evicted := false, probe := none },
   { evicted := false, probe := some tvX.header },
   { evicted := true, probe := none }]

/-! ## Helper lemmas -/

/-- Exhaustive characterisation of one chain-sync iteration: the peer is left
untouched, reset to S0, (re-)entered into the watching state S1, evicted from
the probed state, or probed. -/
theorem chainSyncTick_shape (e : Env) (st st' : PeerState) (o : TickOut)
    (h : chainSyncTick e st = some (st', o)) :
    (st' = st ∧ o = { evicted := false, probe := none })
    ∨ (st' = { st with chain_sync :=
          { st.chain_sync with
            timeout := 0, work_header := none, sent_getheaders := false } }
        ∧ o = { evicted := false, probe := none })
    ∨ (st' = { st with chain_sync :=
          { st.chain_sync with
            timeout := e.now + CHAIN_SYNC_TIMEOUT,
            work_header := some e.tip, sent_getheaders := false } }
        ∧ o = { evicted := false, probe := none })
    ∨ (st.chain_sync.sent_getheaders = true ∧ st' = { st with disconnect := true }
        ∧ o = { evicted := true, probe := none })
    ∨ (∃ w, st.chain_sync.work_header = some w ∧ st.chain_sync.sent_getheaders = false
        ∧ st' = { st with chain_sync :=
            { st.chain_sync with
              sent_getheaders := true,
              timeout := e.now + EVICTION_TEST_RESPONSE_TIME } }
        ∧ o = { evicted := false, probe := some w.header }) := by
  unfold chainSyncTick at h
  by_cases hg : st.chain_sync.protect = false ∧ e.outbound = some true
  case neg =>
    rw [if_neg hg] at h
    simp only [Option.some.injEq, Prod.mk.injEq] at h
    obtain ⟨rfl, rfl⟩ := h
    exact Or.inl ⟨rfl, rfl⟩
  case pos =>
    rw [if_pos hg] at h
    by_cases hbt : bestGeTipB e = true
    · rw [if_pos hbt] at h
      by_cases ht0 : st.chain_sync.timeout ≠ 0
      · rw [if_pos ht0] at h
        simp only [Option.some.injEq, Prod.mk.injEq] at h
        obtain ⟨rfl, rfl⟩ := h
        exact Or.inr (Or.inl ⟨rfl, rfl⟩)
      · rw [if_neg ht0] at h
        simp only [Option.some.injEq, Prod.mk.injEq] at h
        obtain ⟨rfl, rfl⟩ := h
        exact Or.inl ⟨rfl, rfl⟩
    · rw [if_neg hbt] at h
      by_cases h2 : st.chain_sync.timeout = 0 ∨ bestGeWorkB e st.chain_sync = true
      · rw [if_pos h2] at h
        simp only [Option.some.injEq, Prod.mk.injEq] at h
        obtain ⟨rfl, rfl⟩ := h
        exact Or.inr (Or.inr (Or.inl ⟨rfl, rfl⟩))
      · rw [if_neg h2] at h
        by_cases h3 : 0 < st.chain_sync.timeout ∧ st.chain_sync.timeout < e.now
        · rw [if_pos h3] at h
          by_cases hs : st.chain_sync.sent_getheaders = true
          · rw [if_pos hs] at h
            simp only [Option.some.injEq, Prod.mk.injEq] at h
            obtain ⟨rfl, rfl⟩ := h
            exact Or.inr (Or.inr (Or.inr (Or.inl ⟨hs, rfl, rfl⟩)))
          · rw [if_neg hs] at h
            rcases hw : st.chain_sync.work_header with _ | w
            · simp only [hw] at h
              exact Option.noConfusion h
            · simp only [hw] at h
              simp only [Option.some.injEq, Prod.mk.injEq] at h
              obtain ⟨rfl, rfl⟩ := h
              refine Or.inr (Or.inr (Or.inr (Or.inr ⟨w, rfl, ?_, ?_, rfl⟩)))
              · simpa using hs
              · simp [hw]
        · rw [if_neg h3] at h
          simp only [Option.some.injEq, Prod.mk.injEq] at h
          obtain ⟨rfl, rfl⟩ := h
          exact Or.inl ⟨rfl, rfl⟩

/-- A chain-sync iteration pushes a peer onto the eviction list only from the
probed state: the pre-state must carry `sent_getheaders = true`. -/
theorem chainSyncTick_evicted_sent (e : Env) (st st' : PeerState) (o : TickOut)
    (h : chainSyncTick e st = some (st', o)) (he : o.evicted = true) :
    st.chain_sync.sent_getheaders = true := by
  rcases chainSyncTick_shape e st st' o h with
    ⟨_, rfl⟩ | ⟨_, rfl⟩ | ⟨_, rfl⟩ | ⟨hs, _, _⟩ | ⟨w, _, _, _, rfl⟩
  · exact Bool.noConfusion he
  · exact Bool.noConfusion he
  · exact Bool.noConfusion he
  · exact hs
  · exact Bool.noConfusion he

/-- A chain-sync iteration ends with `sent_getheaders = true` only if it was
already set or the iteration sent the probe. -/
theorem chainSyncTick_sent_origin (e : Env) (st st' : PeerState) (o : TickOut)
    (h : chainSyncTick e st = some (st', o))
    (hs : st'.chain_sync.sent_getheaders = true) :
    st.chain_sync.sent_getheaders = true ∨ o.probe.isSome = true := by
  rcases chainSyncTick_shape e st st' o h with
    ⟨rfl, rfl⟩ | ⟨rfl, rfl⟩ | ⟨rfl, rfl⟩ | ⟨hsent, _, _⟩ | ⟨w, _, _, _, rfl⟩
  · exact Or.inl hs
  · exact Bool.noConfusion hs
  · exact Bool.noConfusion hs
  · exact Or.inl hsent
  · exact Or.inr rfl

/-- The headers-sync guard, spelled out. -/
theorem headersFire_iff (e : Env) (st : PeerState) :
    headersFire e st = true ↔
      ∃ t, st.headers_sync_timeout = some t ∧ t < e.now ∧ e.ibd = true
        ∧ st.disconnect = false := by
  unfold headersFire
  rcases hh : st.headers_sync_timeout with _ | t
  · simp
  · simp [and_assoc]

/-- An eviction iteration whose headers-sync guard fires marks the peer. -/
theorem evictionTick_fire (e : Env) (st : PeerState) (h : headersFire e st = true) :
    evictionTick e st =
      some ({ st with disconnect := true }, { evicted := true, probe := none }) := by
  unfold evictionTick
  rw [if_pos h]

/-- An eviction iteration whose headers-sync guard does not fire is exactly
the chain-sync iteration. -/
theorem evictionTick_nofire (e : Env) (st : PeerState) (h : headersFire e st = false) :
    evictionTick e st = chainSyncTick e st := by
  unfold evictionTick
  rw [if_neg (by simp [h])]

/-- Outside initial-block-download the headers-sync branch never fires and an
eviction iteration is exactly the chain-sync iteration. -/
theorem evictionTick_noibd (e : Env) (st : PeerState) (hibd : e.ibd = false) :
    evictionTick e st = chainSyncTick e st := by
  apply evictionTick_nofire
  unfold headersFire
  rcases hh : st.headers_sync_timeout with _ | t
  · simp
  · simp [hibd]

/-- Eviction iterations preserve the S0 coherence invariant `csInv`: the
chain-sync timeout is zero only in the fully inactive record. -/
theorem evictionTick_preserves_csInv (e : Env) (st st' : PeerState) (o : TickOut)
    (h : evictionTick e st = some (st', o)) (hi : csInv st) : csInv st' := by
  unfold evictionTick at h
  by_cases hf : headersFire e st = true
  · rw [if_pos hf] at h
    simp only [Option.some.injEq, Prod.mk.injEq] at h
    obtain ⟨rfl, rfl⟩ := h
    exact hi
  · rw [if_neg hf] at h
    rcases chainSyncTick_shape e st st' o h with
      ⟨rfl, _⟩ | ⟨rfl, _⟩ | ⟨rfl, _⟩ | ⟨_, rfl, _⟩ | ⟨w, _, _, rfl, _⟩
    · exact hi
    · intro _; exact ⟨rfl, rfl⟩
    · intro h0
      exact absurd h0 (by simp [CHAIN_SYNC_TIMEOUT])
    · exact hi
    · intro h0
      exact absurd h0 (by simp [EVICTION_TEST_RESPONSE_TIME])

/-- Along any run of eviction ticks that all lie outside initial-block-download,
a tick that pushes the peer onto the eviction list is preceded either by
`sent_getheaders` already set at the start of the run or by an earlier tick
that sent a GetHeaders probe. -/
theorem runTicks_evict_probe_aux (es : List Env) :
    ∀ (st stN : PeerState) (os : List TickOut),
      (∀ x ∈ es, x.ibd = false) → runTicks es st = some (stN, os) →
      ∀ (k : Nat) (o : TickOut), os[k]? = some o → o.evicted = true →
        st.chain_sync.sent_getheaders = true
        ∨ ∃ (j : Nat) (p : TickOut), j < k ∧ os[j]? = some p ∧ p.probe.isSome = true := by
  induction es with
  | nil =>
    intro st stN os _ hrun k o hk _
    simp only [runTicks] at hrun
    simp only [Option.some.injEq, Prod.mk.injEq] at hrun
    obtain ⟨rfl, rfl⟩ := hrun
    simp at hk
  | cons e es ih =>
    intro st stN os hibd hrun k o hk he
    simp only [runTicks] at hrun
    rcases h1 : evictionTick e st with _ | ⟨st1, o1⟩
    · rw [h1] at hrun
      exact absurd hrun (by simp)
    · simp only [h1] at hrun
      rcases h2 : runTicks es st1 with _ | ⟨stN', os'⟩
      · rw [h2] at hrun
        exact absurd hrun (by simp)
      · simp only [h2] at hrun
        simp only [Option.some.injEq, Prod.mk.injEq] at hrun
        obtain ⟨rfl, rfl⟩ := hrun
        have hibd0 : e.ibd = false := hibd e (by simp)
        have hchain : chainSyncTick e st = some (st1, o1) := by
          rw [← evictionTick_noibd e st hibd0]
          exact h1
        cases k with
        | zero =>
          simp only [List.getElem?_cons_zero, Option.some.injEq] at hk
          obtain rfl := hk
          exact Or.inl (chainSyncTick_evicted_sent e st st1 o1 hchain he)
        | succ k =>
          simp only [List.getElem?_cons_succ] at hk
          rcases ih st1 stN' os' (fun x hx => hibd x (by simp [hx])) h2 k o hk he with
            hs1 | ⟨j, p, hj, hjp, hp⟩
          · rcases chainSyncTick_sent_origin e st st1 o1 hchain hs1 with hs0 | hprobe
            · exact Or.inl hs0
            · exact Or.inr ⟨0, o1, Nat.succ_pos k, by simp, hprobe⟩
          · exact Or.inr ⟨j + 1, p, Nat.succ_lt_succ hj, by simpa using hjp, hp⟩

/-- Shape of a non-panicking `reconstruct_block` result: either a block with
no missing list, or no block with a nonempty missing list. -/
theorem reconstruct_block_shape (cb : CompactBlock) (ts pool orphan : List Transaction)
    (r : Option Block × Option (List Nat))
    (h : reconstruct_block cb ts pool orphan = some r) :
    (∃ b, r = (some b, none)) ∨ (∃ m, m ≠ [] ∧ r = (none, some m)) := by
  unfold reconstruct_block at h
  rcases hL : reconstructLoop cb.short_ids.enum
      (buildShortIdMap cb (ts ++ pool ++ orphan)) [] [] with _ | ⟨bts, missing⟩
  · rw [hL] at h
    exact Option.noConfusion h
  · simp only [hL] at h
    by_cases hm : missing = []
    · rw [if_pos hm] at h
      simp only [Option.some.injEq] at h
      exact Or.inl ⟨_, h.symm⟩
    · rw [if_neg hm] at h
      simp only [Option.some.injEq] at h
      exact Or.inr ⟨missing, hm, h.symm⟩

/-! ## Claim theorems -/

/-- Claim C1 (code bug, evaluation at the failing input).  The claim says a
transaction or block is admitted and forwarded exactly when its hash is newly
seen.  The dedup guards read `if !set.insert(hash)`, and `HashSet::insert`
returns `true` for a newly inserted element, so the code does the opposite:
the first receipt of transaction hash 5 only records the hash (no pool
admission, no relay), while the second receipt of the same payload admits it
to the pool and relays it; likewise for a block with header hash 9.  Duplicate
payloads are therefore admitted and forwarded again, not suppressed. -/
theorem c1_relay_polarity_eval :
    RelayProtocol.process [] [] (fun _ => none) st0R { transaction := some { hash := 5 } } =
      some ({ st0R with received_transactions := [5] }, {})
    ∧ RelayProtocol.process [] [] (fun _ => none)
        { st0R with received_transactions := [5] } { transaction := some { hash := 5 } } =
      some ({ st0R with received_transactions := [5] },
            { pool_add := some 5, relayed := true })
    ∧ RelayProtocol.process [] [] (fun _ => none) st0R
        { block := some { header := { number := 1, hash := 9 },
                          transactions := [], uncles := [] } } =
      some ({ st0R with received_blocks := [9] }, {})
    ∧ RelayProtocol.process [] [] (fun _ => none)
        { st0R with received_blocks := [9] }
        { block := some { header := { number := 1, hash := 9 },
                          transactions := [], uncles := [] } } =
      some ({ st0R with received_blocks := [9] },
            { submitted := some 9, relayed := true }) := by
  decide

/-- Claim C2, amended.  For every peer whose `headers_sync_timeout` is
`Some t`: if on an eviction tick `now > t`, the node is in
initial-block-download and the `disconnect` flag is unset, then eviction marks
`disconnect = true` and reports the peer with `Severity::Timeout`; the
`protect` flag does not exempt a peer from this timeout (the state `st` here
carries an arbitrary `protect` bit).  Once `disconnect` is set, the
headers-sync check never fires again for the peer, so the headers-sync
machinery reports it at most once — but, unlike the claim, a later tick can
still report the same peer through the chain-sync eviction branch, which does
not test `disconnect` (see the counterexample). -/
theorem c2_headers_timeout_once_amended (st st' : PeerState) (t : Nat) (e e' : Env) (p : Nat)
    (h1 : st.headers_sync_timeout = some t)
    (h2 : t < e.now)
    (h3 : e.ibd = true)
    (h4 : st.disconnect = false)
    (h5 : st'.disconnect = true) :
    evictionTick e st =
      some ({ st with disconnect := true }, { evicted := true, probe := none })
    ∧ mapEviction (fun _ => e) [(p, st)] =
        some ([(p, { st with disconnect := true })], [(p, Severity.Timeout)])
    ∧ evictionTick e' st' = chainSyncTick e' st' := by
  have hfire : evictionTick e st =
      some ({ st with disconnect := true }, { evicted := true, probe := none }) :=
    evictionTick_fire e st ((headersFire_iff e st).mpr ⟨t, h1, h2, h3, h4⟩)
  refine ⟨hfire, ?_, ?_⟩
  · unfold mapEviction
    rw [hfire]
    rfl
  · apply evictionTick_nofire
    unfold headersFire
    rcases hh : st'.headers_sync_timeout with _ | u
    · simp
    · simp [h5]

/-- Witness for `c2_headers_timeout_once_amended` at a protected peer with
deadline 3 and clock 10. -/
theorem c2_headers_timeout_once_witness :
    evictionTick e2w st2w =
      some ({ st2w with disconnect := true }, { evicted := true, probe := none })
    ∧ mapEviction (fun _ => e2w) [(0, st2w)] =
        some ([(0, { st2w with disconnect := true })], [(0, Severity.Timeout)])
    ∧ evictionTick e2w { st2w with disconnect := true } =
        chainSyncTick e2w { st2w with disconnect := true } :=
  c2_headers_timeout_once_amended st2w { st2w with disconnect := true } 3 e2w e2w 0
    rfl (by decide) rfl rfl rfl

/-- Claim C2 (counterexample).  The claim says a peer whose headers-sync
deadline expires during initial-block-download is reported with
`Severity::Timeout` exactly once and that subsequent ticks do not report it
again.  On this four-tick trace the peer enters chain-sync watching (tick 0),
is probed (tick 1), is reported by the headers-sync timeout (tick 2, setting
`disconnect`), and is then reported a second time on tick 3: the chain-sync
eviction branch does not test the `disconnect` flag. -/
theorem c2_reported_twice_cex :
    runTicks [c2e0, c2e1, c2e2, c2e3] c2st0 =
      some ({ headers_sync_timeout := some 1320003, disconnect := true,
              chain_sync := { protect := false, timeout := 1320002,
                              work_header := some tvX, sent_getheaders := true } },
            [{ evicted := false, probe := none },
             { evicted := false, probe := some tvX.header },
             { evicted := true, probe := none },
             { evicted := true, probe := none }]) := by
  decide

/-- Claim C3 (counterexample).  The claim says an unprotected outbound peer
that stays behind our tip is never marked `disconnect` by the eviction step
before first receiving a GetHeaders probe.  During initial-block-download the
headers-sync timeout disconnects exactly such a peer on its first tick,
without any probe ever having been sent. -/
theorem c3_disconnect_without_probe_cex :
    runTicks [c3e] c3st0 =
      some ({ c3st0 with disconnect := true }, [{ evicted := true, probe := none }]) := by
  decide

/-- Claim C3, amended.  Outside initial-block-download (where the headers-sync
timeout cannot fire — during IBD it disconnects a lagging peer without any
probe, see the counterexample), the chain-sync machinery is two-phase for an
unprotected outbound peer behind our tip.  When the chain-sync timeout first
expires with `sent_getheaders = false`, the tick sends a single GetHeaders
anchored on `work_header`, sets `sent_getheaders := true` and
`timeout := now + EVICTION_TEST_RESPONSE_TIME`, without disconnecting; only
when the timeout expires again with `sent_getheaders = true` is the peer
marked `disconnect` and reported with `Severity::Timeout`; and along any run
of ticks started with `sent_getheaders = false`, an evicting tick is strictly
preceded by a probing tick. -/
theorem c3_two_phase_amended
    (e eB : Env) (st stB : PeerState) (w : HeaderView)
    (es : List Env) (st0 stN : PeerState) (os : List TickOut) (k : Nat) (o : TickOut)
    (h1 : e.outbound = some true) (h2 : st.chain_sync.protect = false)
    (h3 : bestGeTipB e = false) (h4 : st.chain_sync.timeout ≠ 0)
    (h5 : bestGeWorkB e st.chain_sync = false) (h6 : st.chain_sync.timeout < e.now)
    (h7 : st.chain_sync.sent_getheaders = false) (h8 : st.chain_sync.work_header = some w)
    (g1 : eB.outbound = some true) (g2 : stB.chain_sync.protect = false)
    (g3 : bestGeTipB eB = false) (g4 : stB.chain_sync.timeout ≠ 0)
    (g5 : bestGeWorkB eB stB.chain_sync = false) (g6 : stB.chain_sync.timeout < eB.now)
    (g7 : stB.chain_sync.sent_getheaders = true) (g8 : eB.ibd = false)
    (t1 : ∀ x ∈ es, x.ibd = false)
    (t2 : runTicks es st0 = some (stN, os))
    (t3 : st0.chain_sync.sent_getheaders = false)
    (t4 : os[k]? = some o) (t5 : o.evicted = true) :
    chainSyncTick e st =
      some ({ st with chain_sync :=
                { st.chain_sync with
                  sent_getheaders := true,
                  timeout := e.now + EVICTION_TEST_RESPONSE_TIME } },
            { evicted := false, probe := some w.header })
    ∧ chainSyncTick eB stB =
        some ({ stB with disconnect := true }, { evicted := true, probe := none })
    ∧ mapEviction (fun _ => eB) [(0, stB)] =
        some ([(0, { stB with disconnect := true })], [(0, Severity.Timeout)])
    ∧ (∃ (j : Nat) (p : TickOut), j < k ∧ os[j]? = some p ∧ p.probe.isSome = true) := by
  have hprobe : chainSyncTick e st =
      some ({ st with chain_sync :=
                { st.chain_sync with
                  sent_getheaders := true,
                  timeout := e.now + EVICTION_TEST_RESPONSE_TIME } },
            { evicted := false, probe := some w.header }) := by
    unfold chainSyncTick
    rw [if_pos ⟨h2, h1⟩]
    rw [if_neg (by simp [h3])]
    rw [if_neg (by simp [h4, h5])]
    rw [if_pos ⟨Nat.pos_of_ne_zero h4, h6⟩]
    rw [if_neg (by simp [h7])]
    simp only [h8]
  have hevict : chainSyncTick eB stB =
      some ({ stB with disconnect := true }, { evicted := true, probe := none }) := by
    unfold chainSyncTick
    rw [if_pos ⟨g2, g1⟩]
    rw [if_neg (by simp [g3])]
    rw [if_neg (by simp [g4, g5])]
    rw [if_pos ⟨Nat.pos_of_ne_zero g4, g6⟩]
    rw [if_pos g7]
  refine ⟨hprobe, hevict, ?_, ?_⟩
  · unfold mapEviction
    rw [evictionTick_noibd eB stB g8, hevict]
    rfl
  · rcases runTicks_evict_probe_aux es st0 stN os t1 t2 k o t4 t5 with hs | hj
    · rw [t3] at hs
      exact Bool.noConfusion hs
    · exact hj

/-- Witness for `c3_two_phase_amended`: the probe tick `(eP3, stP3)`, the
eviction tick `(eB3, stB3)`, and the three-tick trace `c3f0, c3f1, c3f2` from
the freshly connected state, whose tick at index 2 evicts and whose tick at
index 1 probes. -/
theorem c3_two_phase_witness :
    chainSyncTick eP3 stP3 =
      some ({ stP3 with chain_sync :=
                { stP3.chain_sync with
                  sent_getheaders := true,
                  timeout := eP3.now + EVICTION_TEST_RESPONSE_TIME } },
            { evicted := false, probe := some tvX.header })
    ∧ chainSyncTick eB3 stB3 =
        some ({ stB3 with disconnect := true }, { evicted := true, probe := none })
    ∧ mapEviction (fun _ => eB3) [(0, stB3)] =
        some ([(0, { stB3 with disconnect := true })], [(0, Severity.Timeout)])
    ∧ (∃ (j : Nat) (p : TickOut), j < 2 ∧ c3osW[j]? = some p ∧ p.probe.isSome = true) :=
  c3_two_phase_amended eP3 eB3 stP3 stB3 tvX [c3f0, c3f1, c3f2] c3st0 c3stNW c3osW 2
    { evicted := true, probe := none }
    rfl rfl (by decide) (by decide) (by decide) (by decide) rfl rfl
    rfl rfl (by decide) (by decide) (by decide) (by decide) rfl rfl
    (by decide) (by decide) rfl rfl rfl

/-- Claim C4, confirmed.  For every peer whose `chain_sync.protect` flag is
true — and likewise for every peer that is not outbound — an eviction tick is
a no-op of the chain-sync machinery: the chain-sync iteration returns the
state unchanged with no eviction and no probe, and the full eviction iteration
never modifies the `chain_sync` record and never sends a probe, regardless of
the environment (in particular regardless of how far behind our tip the peer
is). -/
theorem c4_protect_no_chain_sync (e : Env) (st : PeerState)
    (hp : st.chain_sync.protect = true ∨ e.outbound ≠ some true) :
    chainSyncTick e st = some (st, { evicted := false, probe := none })
    ∧ (evictionTick e st).map (fun r => r.1.chain_sync) = some st.chain_sync
    ∧ (evictionTick e st).map (fun r => r.2.probe) = some (none : Option Header) := by
  have hcs : chainSyncTick e st = some (st, { evicted := false, probe := none }) := by
    have hg : ¬ (st.chain_sync.protect = false ∧ e.outbound = some true) := by
      rcases hp with hp | hp
      · intro hx
        rw [hp] at hx
        exact Bool.noConfusion hx.1
      · intro hx
        exact hp hx.2
    unfold chainSyncTick
    rw [if_neg hg]
  have hev : evictionTick e st = some (st, { evicted := false, probe := none })
      ∨ evictionTick e st =
          some ({ st with disconnect := true }, { evicted := true, probe := none }) := by
    by_cases hf : headersFire e st = true
    · exact Or.inr (evictionTick_fire e st hf)
    · exact Or.inl (by rw [evictionTick_nofire e st (by simpa using hf)]; exact hcs)
  refine ⟨hcs, ?_, ?_⟩ <;> rcases hev with h | h <;> rw [h] <;> rfl

/-- Witness for `c4_protect_no_chain_sync`: a protected outbound peer with an
active chain-sync record. -/
theorem c4_protect_witness :
    chainSyncTick e4w st4w = some (st4w, { evicted := false, probe := none })
    ∧ (evictionTick e4w st4w).map (fun r => r.1.chain_sync) = some st4w.chain_sync
    ∧ (evictionTick e4w st4w).map (fun r => r.2.probe) = some (none : Option Header) :=
  c4_protect_no_chain_sync e4w st4w (Or.inl rfl)

/-- Claim C7, amended.  On an eviction tick, an unprotected outbound peer
whose best-known cumulative difficulty meets or exceeds our tip has its
`chain_sync` record (re-)set to the inactive state S0 (`timeout = 0`,
`work_header = None`, `sent_getheaders = false`) and is neither probed nor
evicted on that tick — provided the headers-sync timeout does not fire for the
peer on that same tick (when it does, the loop `continue`s and `chain_sync` is
left unchanged: see the counterexample).  The S0-coherence invariant `csInv`
(established at connect and preserved by every tick,
`evictionTick_preserves_csInv`) covers the case where the record was already
inactive and the source writes nothing. -/
theorem c7_reset_to_inactive_amended (e : Env) (st : PeerState) (b : HeaderView)
    (h1 : e.outbound = some true)
    (h2 : st.chain_sync.protect = false)
    (h3 : e.best_known = some b)
    (h4 : e.tip.total_difficulty ≤ b.total_difficulty)
    (h5 : ∀ u, st.headers_sync_timeout = some u →
        ¬ (u < e.now ∧ e.ibd = true ∧ st.disconnect = false))
    (h6 : csInv st) :
    evictionTick e st =
      some ({ st with chain_sync :=
                { protect := false, timeout := 0, work_header := none,
                  sent_getheaders := false } },
            { evicted := false, probe := none }) := by
  have hbt : bestGeTipB e = true := by
    unfold bestGeTipB
    simp only [h3]
    simpa using h4
  unfold csInv at h6
  rcases st with ⟨hst, hdis, ⟨pr, ti, wh, sg⟩⟩
  have hpr : pr = false := h2
  subst hpr
  have hcs : chainSyncTick e ⟨hst, hdis, ⟨false, ti, wh, sg⟩⟩ =
      some ({ headers_sync_timeout := hst, disconnect := hdis,
              chain_sync := { protect := false, timeout := 0, work_header := none,
                              sent_getheaders := false } },
            { evicted := false, probe := none }) := by
    unfold chainSyncTick
    rw [if_pos ⟨rfl, h1⟩]
    rw [if_pos hbt]
    by_cases ht0 : ti ≠ 0
    · rw [if_pos ht0]
    · rw [if_neg ht0]
      have hti : ti = 0 := not_not.mp ht0
      subst hti
      obtain ⟨hwn, hsn⟩ := h6 rfl
      have hwn' : wh = none := hwn
      have hsn' : sg = false := hsn
      subst hwn'
      subst hsn'
      rfl
  have hnf : headersFire e ⟨hst, hdis, ⟨false, ti, wh, sg⟩⟩ = false := by
    have hnot : ¬ headersFire e ⟨hst, hdis, ⟨false, ti, wh, sg⟩⟩ = true := by
      rw [headersFire_iff]
      rintro ⟨u, hu, hcond⟩
      exact h5 u hu hcond
    simpa using hnot
  rw [evictionTick_nofire _ _ hnf]
  exact hcs

/-- Witness for `c7_reset_to_inactive_amended`: a probed unprotected outbound
peer whose best-known difficulty has reached our tip is reset to S0. -/
theorem c7_reset_to_inactive_witness :
    evictionTick e7w st7w =
      some ({ st7w with chain_sync :=
                { protect := false, timeout := 0, work_header := none,
                  sent_getheaders := false } },
            { evicted := false, probe := none }) :=
  c7_reset_to_inactive_amended e7w st7w tvX rfl rfl rfl (by decide)
    (fun u hu => Option.noConfusion hu) (fun h0 => absurd h0 (by decide))

/-- Claim C5 (code bug, evaluation at the failing input).  The compact block
`c5cb` has short ids `[1, 12]`; id 1 resolves to nothing and id 12 resolves to
the pool transaction with hash 1.  The claim says reconstruction returns the
missing-index list `[0]`; instead the source panics: after index 0 is recorded
missing, `block_transactions.insert(1, tx)` is called on a vector of length 0,
and `Vec::insert` panics when the index exceeds the length. -/
theorem c5_reconstruct_panic_eval :
    reconstruct_block c5cb [] [{ hash := 1 }] [] = none
    ∧ c5cb.short_ids = [1, 12] := by
  decide

/-- Claim C6 (code bug, evaluation at the failing input).  For a
`BlockTransactionsRequest` naming stored hash 7 with indexes `[0]`, the claim
says the response carries the requested transactions (here the transaction
with hash 3).  The source builds the `BlockTransactions` message but never
attaches it to the payload it responds with, so the responded payload is
empty. -/
theorem c6_empty_response_eval :
    RelayProtocol.process [] [] c6get st0R
        { block_transactions_request := some (7, [0]) } =
      some (st0R, { responded := some ({} : Payload) })
    ∧ requested_transactions c6blk [0] = [{ hash := 3 }]
    ∧ ({} : Payload).block_transactions = none := by
  decide

/-- Claim C7 (counterexample).  The claim says that on every eviction tick an
unprotected outbound peer whose best-known difficulty meets our tip has its
chain-sync record reset to the inactive state.  On tick 2 of this trace the
peer reports difficulty 10 (our tip difficulty), but the headers-sync timeout
fires on that same tick and `continue`s past the chain-sync machinery, so the
chain-sync record stays in its probed state (`timeout = 1320002`). -/
theorem c7_headers_fire_skips_reset_cex :
    runTicks [c7e0, c7e1, c7e2] c7st0 =
      some ({ headers_sync_timeout := some 1300000, disconnect := true,
              chain_sync := { protect := false, timeout := 1320002,
                              work_header := some tvX, sent_getheaders := true } },
            [{ evicted := false, probe := none },
             { evicted := false, probe := some tvX.header },
             { evicted := true, probe := none }])
    ∧ bestGeTipB c7e2 = true := by
  decide

/-- Claim C8 (counterexample).  The claim says every invocation of `read`,
`connected` and `timeout` enqueues exactly one work item.  A `connected` call
while a sync is in progress (`n_sync = 1`) during initial-block-download
enqueues nothing, and a `read` whose payload carries only a transaction
matches no arm of `SyncProtocol::process` and enqueues nothing. -/
theorem c8_no_item_cex :
    SyncProtocol.dispatch_on_connected 1 true 7 = none
    ∧ SyncProtocol.process 0 { transaction := some { hash := 5 } } = none := by
  decide

/-- Claim C8, amended.  Every invocation of `read`, `connected` and `timeout`
on `SyncProtocol` translates its event into at most one tagged work item:
`read` produces one exactly when the parsed payload carries a getheaders,
headers, getdata or block message; `connected` exactly when no sync is in
progress (`n_sync = 0`) or initial-block-download is over; the getheaders
timer exactly when peers are connected and the same sync condition holds; the
block-fetch timer exactly when peers are connected.  The produced item is
pushed with `try_send` onto the bounded queue of capacity 65535: on a full
queue the item is dropped and an error flag is reported with the queue
unchanged, otherwise the item is appended; the call never blocks. -/
theorem c8_dispatch_amended (p : Payload) (peer n : Nat) (ibd pe : Bool)
    (q q' : List Task) (t t' : Task)
    (hq : 65535 ≤ q.length) (hq' : q'.length < 65535) :
    (SyncProtocol.process peer p).isSome =
      (p.getheaders.isSome || p.headers.isSome || p.getdata.isSome || p.block.isSome)
    ∧ (SyncProtocol.dispatch_on_connected n ibd peer).isSome = decide (n = 0 ∨ ibd = false)
    ∧ (SyncProtocol.timeoutDispatch pe n ibd SEND_GET_HEADERS_TOKEN).isSome =
        decide (pe = false ∧ (n = 0 ∨ ibd = false))
    ∧ (SyncProtocol.timeoutDispatch pe n ibd BLOCK_FETCH_TOKEN).isSome = decide (pe = false)
    ∧ trySend q t = (q, true)
    ∧ trySend q' t' = (q' ++ [t'], false) := by
  refine ⟨?_, ?_, ?_, ?_, ?_, ?_⟩
  · unfold SyncProtocol.process
    rcases hg : p.getheaders with _ | m₁ <;>
      rcases hh : p.headers with _ | m₂ <;>
        rcases hd : p.getdata with _ | m₃ <;>
          rcases hb : p.block with _ | m₄ <;> simp
  · unfold SyncProtocol.dispatch_on_connected
    by_cases hc : n = 0 ∨ ibd = false
    · rw [if_pos hc]; simp [hc]
    · rw [if_neg hc]; simp [hc]
  · unfold SyncProtocol.timeoutDispatch SyncProtocol.dispatch_getheaders
    rcases pe with _ | _
    · by_cases hc : n = 0 ∨ ibd = false
      · simp [SEND_GET_HEADERS_TOKEN, hc]
      · simp [SEND_GET_HEADERS_TOKEN, hc]
    · simp
  · unfold SyncProtocol.timeoutDispatch SyncProtocol.dispatch_block_fetch
    rcases pe with _ | _
    · simp [SEND_GET_HEADERS_TOKEN, BLOCK_FETCH_TOKEN]
    · simp
  · unfold trySend
    rw [if_neg (by omega)]
  · unfold trySend
    rw [if_pos hq']

/-- Witness for `c8_dispatch_amended`: a getheaders payload, an idle node, a
full queue of 65535 items and an empty queue. -/
theorem c8_dispatch_witness :
    (SyncProtocol.process 0
        { getheaders := some { version := 0, block_locator_hashes := [], hash_stop := 0 } }).isSome =
      (({ getheaders := some { version := 0, block_locator_hashes := [], hash_stop := 0 } }
          : Payload).getheaders.isSome
        || ({ getheaders := some { version := 0, block_locator_hashes := [], hash_stop := 0 } }
          : Payload).headers.isSome
        || ({ getheaders := some { version := 0, block_locator_hashes := [], hash_stop := 0 } }
          : Payload).getdata.isSome
        || ({ getheaders := some { version := 0, block_locator_hashes := [], hash_stop := 0 } }
          : Payload).block.isSome)
    ∧ (SyncProtocol.dispatch_on_connected 0 false 0).isSome = decide ((0 : Nat) = 0 ∨ false = false)
    ∧ (SyncProtocol.timeoutDispatch false 0 false SEND_GET_HEADERS_TOKEN).isSome =
        decide (false = false ∧ ((0 : Nat) = 0 ∨ false = false))
    ∧ (SyncProtocol.timeoutDispatch false 0 false BLOCK_FETCH_TOKEN).isSome =
        decide (false = false)
    ∧ trySend (List.replicate 65535 Task.FetchBlock) Task.FetchBlock =
        (List.replicate 65535 Task.FetchBlock, true)
    ∧ trySend [] Task.FetchBlock = ([] ++ [Task.FetchBlock], false) :=
  c8_dispatch_amended
    { getheaders := some { version := 0, block_locator_hashes := [], hash_stop := 0 } }
    0 0 false false (List.replicate 65535 Task.FetchBlock) [] Task.FetchBlock Task.FetchBlock
    (by rw [List.length_replicate]) (by simp)

/-- Claim C9, amended.  An entry is inserted into the pending-reconstruction
map exactly when a `BlockTransactionsRequest` is emitted for a compact block
with missing indices, and is removed exactly when a `BlockTransactions`
message for that hash arrives; at that point reconstruction is retried with
the supplied transactions and the block is submitted exactly when the retry
succeeds (a response that still leaves short ids unresolved drops the pending
entry without submitting anything, unlike the claim: see the
counterexample).  A `BlockTransactions` whose hash has no pending entry —
including a duplicate for an already-completed hash — is ignored and leaves
all state unchanged. -/
theorem c9_pending_lifecycle_amended
    (pool orphan : List Transaction) (getB : Nat → Option Block)
    (st st₁ st₂ : RelayState) (cb cb₀ : CompactBlock) (eff₁ eff₂ : RelayEffects)
    (hsh : Nat) (txs : List Transaction)
    (h₁ : RelayProtocol.process pool orphan getB st { compact_block := some cb } =
        some (st₁, eff₁))
    (h₂ : RelayProtocol.process pool orphan getB st { block_transactions := some (hsh, txs) } =
        some (st₂, eff₂)) :
    ((∃ m, eff₁.responded =
          some { block_transactions_request := some (cb.header.hash, m) }
        ∧ st₁.pending_compact_blocks = alInsert cb.header.hash cb st.pending_compact_blocks)
      ∨ (eff₁.responded = none
        ∧ st₁.pending_compact_blocks = st.pending_compact_blocks))
    ∧ (alLookup hsh st.pending_compact_blocks = none →
        st₂ = st ∧ eff₂ = ({} : RelayEffects))
    ∧ (alLookup hsh st.pending_compact_blocks = some cb₀ →
        st₂.pending_compact_blocks = alErase hsh st.pending_compact_blocks
        ∧ (eff₂.submitted.isSome = true ↔
            ∃ b, reconstruct_block cb₀ txs pool orphan = some (some b, none))) := by
  simp only [RelayProtocol.process] at h₁ h₂
  refine ⟨?_, ?_, ?_⟩
  · rcases hsi : setInsert st.received_blocks cb.header.hash with ⟨isNew, rb'⟩
    simp only [hsi] at h₁
    cases isNew with
    | false =>
      rw [if_pos rfl] at h₁
      rcases hrc : reconstruct_block cb [] pool orphan with _ | ⟨ob, om⟩
      · rw [hrc] at h₁
        exact absurd h₁ (by simp)
      · simp only [hrc] at h₁
        rcases ob with _ | b
        · rcases om with _ | m
          · simp only [Option.some.injEq, Prod.mk.injEq] at h₁
            obtain ⟨rfl, rfl⟩ := h₁
            exact Or.inr ⟨rfl, rfl⟩
          · simp only [Option.some.injEq, Prod.mk.injEq] at h₁
            obtain ⟨rfl, rfl⟩ := h₁
            exact Or.inl ⟨m, rfl, rfl⟩
        · simp only [Option.some.injEq, Prod.mk.injEq] at h₁
          obtain ⟨rfl, rfl⟩ := h₁
          exact Or.inr ⟨rfl, rfl⟩
    | true =>
      rw [if_neg (by simp)] at h₁
      simp only [Option.some.injEq, Prod.mk.injEq] at h₁
      obtain ⟨rfl, rfl⟩ := h₁
      exact Or.inr ⟨rfl, rfl⟩
  · intro hnone
    rw [hnone] at h₂
    simp only [Option.some.injEq, Prod.mk.injEq] at h₂
    obtain ⟨rfl, rfl⟩ := h₂
    exact ⟨rfl, rfl⟩
  · intro hsome
    simp only [hsome] at h₂
    rcases hrc : reconstruct_block cb₀ txs pool orphan with _ | ⟨ob, om⟩
    · rw [hrc] at h₂
      exact absurd h₂ (by simp)
    · simp only [hrc] at h₂
      rcases ob with _ | b
      · simp only [Option.some.injEq, Prod.mk.injEq] at h₂
        obtain ⟨rfl, rfl⟩ := h₂
        refine ⟨rfl, ?_⟩
        constructor
        · intro hfalse
          exact absurd hfalse (by simp)
        · rintro ⟨b', hb'⟩
          simp at hb'
      · simp only [Option.some.injEq, Prod.mk.injEq] at h₂
        obtain ⟨rfl, rfl⟩ := h₂
        refine ⟨rfl, ?_⟩
        constructor
        · intro _
          rcases reconstruct_block_shape cb₀ txs pool orphan (some b, om) hrc with
            ⟨b', heq⟩ | ⟨m, hm, heq⟩
          · simp only [Prod.mk.injEq, Option.some.injEq] at heq
            obtain ⟨hb, rfl⟩ := heq
            exact ⟨b, rfl⟩
          · simp only [Prod.mk.injEq] at heq
            exact absurd heq.1 (by simp)
        · intro _
          rfl

/-- Witness for `c9_pending_lifecycle_amended` at the state `c9stW`: the
compact block `c9cbMiss` (short id unresolved) inserts a pending entry while
responding with a request for index 0, and a `BlockTransactions` for hash 200
removes the pending `c9cbHit` and submits the reconstructed block. -/
theorem c9_pending_lifecycle_witness :
    ((∃ m, ({ responded := some { block_transactions_request := some (100, [0]) } }
            : RelayEffects).responded =
          some { block_transactions_request := some (c9cbMiss.header.hash, m) }
        ∧ (alInsert 100 c9cbMiss [(200, c9cbHit)]) =
            alInsert c9cbMiss.header.hash c9cbMiss c9stW.pending_compact_blocks)
      ∨ (({ responded := some { block_transactions_request := some (100, [0]) } }
            : RelayEffects).responded = none
        ∧ (alInsert 100 c9cbMiss [(200, c9cbHit)]) = c9stW.pending_compact_blocks))
    ∧ (alLookup 200 c9stW.pending_compact_blocks = none →
        ({ c9stW with pending_compact_blocks := [] } : RelayState) = c9stW
          ∧ ({ submitted := some 200 } : RelayEffects) = ({} : RelayEffects))
    ∧ (alLookup 200 c9stW.pending_compact_blocks = some c9cbHit →
        ({ c9stW with pending_compact_blocks := [] } : RelayState).pending_compact_blocks =
            alErase 200 c9stW.pending_compact_blocks
        ∧ (({ submitted := some 200 } : RelayEffects).submitted.isSome = true ↔
            ∃ b, reconstruct_block c9cbHit [] [{ hash := 2 }] [] = some (some b, none))) := by
  have h := c9_pending_lifecycle_amended [{ hash := 2 }] [] (fun _ => none)
    c9stW
    { c9stW with pending_compact_blocks := alInsert 100 c9cbMiss [(200, c9cbHit)] }
    { c9stW with pending_compact_blocks := [] }
    c9cbMiss c9cbHit
    { responded := some { block_transactions_request := some (100, [0]) } }
    { submitted := some 200 }
    200 [] (by decide) (by decide)
  simpa using h

/-- Claim C9 (counterexample).  The claim says that when a `BlockTransactions`
message arrives for a pending hash, reconstruction completes and the block is
submitted.  Here the pending compact block (hash 100) has the unresolvable
short id 1; a `BlockTransactions` carrying an unrelated transaction (hash 9)
removes the pending entry but reconstruction still fails, so nothing is
submitted and the pending entry is gone for good. -/
theorem c9_failed_retry_no_submit_cex :
    RelayProtocol.process [] [] (fun _ => none) c9st
        { block_transactions := some (100, [{ hash := 9 }]) } =
      some ({ c9st with pending_compact_blocks := [] }, {}) := by
  decide

/-- Claim C10, amended.  Whenever `reconstruct_block` returns at all — the
source panics in `Vec::insert` when a resolved short id follows a missing one,
the `none` outcome here — it returns exactly one of its two `Some` results:
either `(Some block, None)` or `(None, Some missing)` with a nonempty missing
list; in particular the `(None, None)` case handled by the compact-block
caller is unreachable. -/
theorem c10_result_shape_amended (cb : CompactBlock) (ts pool orphan : List Transaction)
    (r : Option Block × Option (List Nat))
    (h : reconstruct_block cb ts pool orphan = some r) :
    ((∃ b, r = (some b, none)) ∨ (∃ m, m ≠ [] ∧ r = (none, some m)))
    ∧ r ≠ (none, none) := by
  have hshape := reconstruct_block_shape cb ts pool orphan r h
  refine ⟨hshape, ?_⟩
  rcases hshape with ⟨b, rfl⟩ | ⟨m, hm, rfl⟩
  · simp
  · simp

/-- Witness for `c10_result_shape_amended` at a fully resolving compact
block. -/
theorem c10_result_shape_witness :
    ((∃ b, ((some c10blk, (none : Option (List Nat))) : Option Block × Option (List Nat)) =
          (some b, none))
      ∨ (∃ m, m ≠ [] ∧
          ((some c10blk, (none : Option (List Nat))) : Option Block × Option (List Nat)) =
            (none, some m)))
    ∧ ((some c10blk, (none : Option (List Nat))) : Option Block × Option (List Nat)) ≠
        (none, none) :=
  c10_result_shape_amended c10good [] [{ hash := 1 }] [] (some c10blk, none) (by decide)

/-- Claim C10 (counterexample).  The claim says `reconstruct_block` returns
one of its two `Some` results for every input.  On the missing-then-found
input `c10cb` (short ids `[3, 19]`, with 19 the short id of pool transaction
2) the source panics in `Vec::insert` and returns nothing at all. -/
theorem c10_panic_cex :
    reconstruct_block c10cb [] [{ hash := 2 }] [] = none := by
  decide

end CkbSync
